import Mathlib

/-!
Verification of the TodoApp client core: the session-lifecycle utilities in
src/utils/auth.js and the todo classification/sorting logic in
src/frontend/src/pages/ProtectedRoute.js (TodoPage), shallowly embedded.

Time is modelled as `Int`: epoch milliseconds for todo due dates (the value of
`new Date(x).getTime()`), epoch seconds for JWT expiry claims (the code compares
`decoded.exp` against `Date.now() / 1000`).
-/

namespace TodoApp

/-! ### Browser storage model -/

/-- One browser key-value storage tier (localStorage or sessionStorage):
a total map from string keys to optionally present string values.
`getItem` returns `null` (here `none`) for absent keys. -/
def Store : Type := String → Option String

/-- `storage.getItem(k)`. -/
def Store.getItem (st : Store) (k : String) : Option String := st k

/-- `storage.setItem(k, v)`. -/
def Store.setItem (st : Store) (k v : String) : Store :=
  fun q => if q = k then some v else st q

/-- `storage.removeItem(k)`: removing an absent key is a no-op. -/
def Store.removeItem (st : Store) (k : String) : Store :=
  fun q => if q = k then none else st q

/-- `storage.clear()`: the empty storage tier. -/
def Store.clear : Store := fun _ => none

/-- The client-visible storage state: the durable tier (`localStorage`) and the
session-scoped tier (`sessionStorage`). -/
structure ClientState where
  localStorage : Store
  sessionStorage : Store

/-! ### JWT decoding model (external jwt-decode library) -/

/-- Outcome of `jwtDecode(token)` from the external jwt-decode library: the call
either throws (malformed token: bad segment structure, bad base64url, bad JSON)
or returns the decoded payload object. Of the payload only the `exp` claim is
relevant here, and it may be absent (`jwtDecode` does not require or validate
`exp`; a structurally valid JWT without an `exp` claim decodes successfully). -/
inductive DecodeResult : Type
  | malformed : DecodeResult
  | payload : Option Int → DecodeResult
deriving DecidableEq

/-- JS truthiness of a string value: the empty string is the only falsy string. -/
def truthy (s : String) : Bool := s ≠ ""

/-! ### src/utils/auth.js -/

/-- `getToken()` from src/utils/auth.js: `localStorage.getItem("token")`. -/
def getToken (st : ClientState) : Option String :=
  st.localStorage.getItem "token"

/-- `isTokenExpired(token)` from src/utils/auth.js:
```
try { const decoded = jwtDecode(token);
      const now = Date.now() / 1000;
      return decoded.exp < now; }
catch { return true; }
```
`decode` is the behaviour of the external `jwtDecode`; `now` is the sampled
clock in seconds. JS semantics: when the decoded payload lacks `exp`,
`decoded.exp` is `undefined` and `undefined < now` evaluates to `false`
(NaN comparison), so the function returns `false` on that path — only an
actual decode exception reaches the `catch`. -/
def isTokenExpired (decode : String → DecodeResult) (now : Int) (token : String) : Bool :=
  match decode token with
  | .malformed => true
  | .payload none => false
  | .payload (some e) => decide (e < now)

/-- `isLoggedIn()` from src/utils/auth.js:
`const token = getToken(); return token && !isTokenExpired(token);`
modelled by the truthiness of the returned JS value (the expression yields the
falsy `null`/`""` itself when the token is absent or empty). -/
def isLoggedIn (decode : String → DecodeResult) (now : Int) (st : ClientState) : Bool :=
  match getToken st with
  | none => false
  | some token => truthy token && !isTokenExpired decode now token

/-- `clearAllAuthData()` from src/utils/auth.js:
`localStorage.clear(); sessionStorage.clear();`. -/
def clearAllAuthData (_st : ClientState) : ClientState :=
  { localStorage := Store.clear, sessionStorage := Store.clear }

/-- Outcome of the single `fetch` performed by `isValidToken`: a response with
`response.ok` true (status 200–299), a response with `response.ok` false
(carrying its status), or a rejected promise (network failure / thrown error). -/
inductive NetResult : Type
  | ok : NetResult
  | httpError : Nat → NetResult
  | netFail : NetResult
deriving DecidableEq

/-- `isValidToken()` from src/utils/auth.js. Besides the returned boolean we
track the resulting storage state and the number of network requests issued,
so that the no-network-call and cleanup side-effect properties are statable:
```
const token = getToken();
if (!token || isTokenExpired(token)) return false;
try { const response = await fetch(...);   // the one network call
      if (response.ok) return true;
      else { clearAllAuthData(); return false; } }
catch { clearAllAuthData(); return false; }
```
`resp` is the outcome of the fetch, consumed only if the fetch happens. -/
def isValidToken (decode : String → DecodeResult) (now : Int) (st : ClientState)
    (resp : NetResult) : Bool × ClientState × Nat :=
  match getToken st with
  | none => (false, st, 0)
  | some token =>
    if !truthy token || isTokenExpired decode now token then (false, st, 0)
    else
      match resp with
      | .ok => (true, st, 1)
      | .httpError _ => (false, clearAllAuthData st, 1)
      | .netFail => (false, clearAllAuthData st, 1)

/-- The six localStorage keys removed by `logout()`. -/
def logoutRemovedKeys : List String :=
  ["token", "username", "userID",
   "numIncompleteTodos", "numCompletedTodos", "numOverdueTodos"]

/-- `logout()` from src/utils/auth.js (storage effect; the trailing
`window.location.href = "/"` navigation is outside the storage model):
six `removeItem` calls on localStorage followed by
`localStorage.setItem("loggedIn", "false")`; sessionStorage is untouched. -/
def logout (st : ClientState) : ClientState :=
  { st with
    localStorage :=
      ((((((st.localStorage.removeItem "token").removeItem
        "username").removeItem "userID").removeItem
        "numIncompleteTodos").removeItem "numCompletedTodos").removeItem
        "numOverdueTodos").setItem "loggedIn" "false" }

/-! ### Todo records and classification (TodoPage, ProtectedRoute.js) -/

/-- A todo record as fetched from the API: id, title, description, due_date
(epoch milliseconds) and completed flag. -/
structure Todo where
  id : Nat
  title : String
  description : String
  due_date : Int
  completed : Bool
deriving DecidableEq

/-- The overdue test as written in the sort comparator (ProtectedRoute.js:531):
`!t.completed && new Date(t.due_date) < now`. -/
def isOverdueAt (now : Int) (t : Todo) : Bool :=
  !t.completed && decide (t.due_date < now)

/-- The sort comparator body (ProtectedRoute.js:529–546) evaluated with a given
sample `now` of the clock (in the source, `const now = new Date()` is executed
inside the comparator, i.e. once per invocation):
```
const aOverdue = !a.completed && new Date(a.due_date) < now;
const bOverdue = !b.completed && new Date(b.due_date) < now;
if (aOverdue !== bOverdue) return aOverdue ? -1 : 1;
if (a.completed !== b.completed) return a.completed ? 1 : -1;
return new Date(a.due_date) - new Date(b.due_date);
```
-/
def compareTodos (now : Int) (a b : Todo) : Int :=
  let aOverdue := isOverdueAt now a
  let bOverdue := isOverdueAt now b
  if aOverdue ≠ bOverdue then (if aOverdue then -1 else 1)
  else if a.completed ≠ b.completed then (if a.completed then 1 else -1)
  else a.due_date - b.due_date

/-- The non-strict order induced by the comparator: `a` may stay before `b`
exactly when the comparator does not return a positive number. -/
def todoLe (now : Int) (a b : Todo) : Prop := compareTodos now a b ≤ 0

instance (now : Int) : DecidableRel (todoLe now) := fun a b =>
  inferInstanceAs (Decidable (compareTodos now a b ≤ 0))

instance (now : Int) : IsTotal Todo (todoLe now) :=
  ⟨fun a b => by
    unfold todoLe compareTodos isOverdueAt
    rcases a with ⟨_, _, _, da, ca⟩
    rcases b with ⟨_, _, _, db, cb⟩
    cases ca <;> cases cb <;>
      by_cases h1 : da < now <;> by_cases h2 : db < now <;>
        simp [h1, h2] <;> omega⟩

instance (now : Int) : IsTrans Todo (todoLe now) :=
  ⟨fun a b c => by
    unfold todoLe compareTodos isOverdueAt
    rcases a with ⟨_, _, _, da, ca⟩
    rcases b with ⟨_, _, _, db, cb⟩
    rcases c with ⟨_, _, _, dc, cc⟩
    cases ca <;> cases cb <;> cases cc <;>
      by_cases h1 : da < now <;> by_cases h2 : db < now <;>
        by_cases h3 : dc < now <;> simp [h1, h2] <;> omega⟩

/-- `todos.slice().sort(comparator)` (ProtectedRoute.js:527–546) with the clock
frozen at one sample `now`, modelled as stable insertion sort (ECMAScript
`Array.prototype.sort` is required to be stable; for a consistent comparator
every stable comparison sort computes the same list). -/
def displaySort (now : Int) (todos : List Todo) : List Todo :=
  List.insertionSort (todoLe now) todos

/-- One step of `orderedInsert` where each comparator invocation samples the
real clock: comparison number `k` sees clock value `clock k`. Returns the
resulting list together with the next comparison index. -/
def orderedInsertClocked (clock : Nat → Int) (a : Todo) :
    Nat → List Todo → List Todo × Nat
  | k, [] => ([a], k)
  | k, b :: l =>
    if compareTodos (clock k) a b ≤ 0 then (a :: b :: l, k + 1)
    else
      let p := orderedInsertClocked clock a (k + 1) l
      (b :: p.1, p.2)

/-- The display sort as actually implemented: each comparator call re-samples
the clock (`const now = new Date()` inside the comparator), so comparison
number `k` of the pass uses `clock k`. -/
def insertionSortClocked (clock : Nat → Int) :
    Nat → List Todo → List Todo × Nat
  | k, [] => ([], k)
  | k, a :: l =>
    let p := insertionSortClocked clock k l
    orderedInsertClocked clock a p.2 p.1

/-- The three-key display order exactly as the spec words it: overdue items
first, then incomplete before completed among equal overdue status, then
ascending due date among remaining ties. -/
def specThreeKeyLe (now : Int) (a b : Todo) : Prop :=
  (isOverdueAt now a = true ∧ isOverdueAt now b = false) ∨
    (isOverdueAt now a = isOverdueAt now b ∧
      ((a.completed = false ∧ b.completed = true) ∨
        (a.completed = b.completed ∧ a.due_date ≤ b.due_date)))

/-- The aggregate counters. -/
structure Counts where
  completed : Nat
  incomplete : Nat
  overdue : Nat
deriving DecidableEq

/-- The body of the stats loop (ProtectedRoute.js:142–150):
```
if (new Date(todo.due_date) < now && !todo.completed) overdue++;
else if (todo.completed) completed++;
else incomplete++;
```
-/
def countStep (now : Int) (c : Counts) (t : Todo) : Counts :=
  if decide (t.due_date < now) && !t.completed then
    { c with overdue := c.overdue + 1 }
  else if t.completed then
    { c with completed := c.completed + 1 }
  else
    { c with incomplete := c.incomplete + 1 }

/-- The stats pass (ProtectedRoute.js:134–156): `const now = new Date()` is
executed once, then the loop classifies every todo against that one sample. -/
def countTodos (now : Int) (todos : List Todo) : Counts :=
  todos.foldl (countStep now) ⟨0, 0, 0⟩

/-- The spec's four-item classification example, with the reference instant
taken as 0 and hours in milliseconds: due now−1h incomplete, due now+1h
incomplete, due now−1h completed, due now+2h incomplete. -/
def specExample : List Todo :=
  [⟨1, "a", "", -3600000, false⟩,
   ⟨2, "b", "", 3600000, false⟩,
   ⟨3, "c", "", -3600000, true⟩,
   ⟨4, "d", "", 7200000, false⟩]

/-! ### Concrete witnesses' fixtures -/

/-- A concrete decode behaviour used by witnesses: `"good"` decodes with
`exp = 10`, `"noexp"` decodes to a payload without an `exp` claim, everything
else (the empty string included) is malformed. -/
def decode0 : String → DecodeResult :=
  fun s =>
    if s = "good" then .payload (some 10)
    else if s = "noexp" then .payload none
    else .malformed

/-- A concrete storage state holding only the token `"good"`. -/
def stGood : ClientState :=
  { localStorage := fun k => if k = "token" then some "good" else none,
    sessionStorage := Store.clear }

/-- A concrete storage state with no token but an unrelated `"theme"` key in
localStorage and a `"draft"` key in sessionStorage. -/
def stTheme : ClientState :=
  { localStorage := fun k => if k = "theme" then some "dark" else none,
    sessionStorage := fun k => if k = "draft" then some "x" else none }

/-- The completely empty storage state. -/
def stEmpty : ClientState :=
  { localStorage := Store.clear, sessionStorage := Store.clear }

/-- A concrete two-item list already in display order for reference instant 0. -/
def sortedPair : List Todo :=
  [⟨1, "a", "", -3600000, false⟩, ⟨2, "b", "", 3600000, false⟩]

/-! ### Helper lemmas -/

/-- The comparator's non-positivity is equivalent to a condition on the
completed flags and due dates alone: in particular it does not depend on the
clock sample used by the comparator invocation. -/
theorem compareTodos_le_iff (now : Int) (a b : Todo) :
    compareTodos now a b ≤ 0 ↔
      ((a.completed = false ∧ b.completed = true) ∨
        (a.completed = b.completed ∧ a.due_date ≤ b.due_date)) := by
  unfold compareTodos isOverdueAt
  rcases a with ⟨_, _, _, da, ca⟩
  rcases b with ⟨_, _, _, db, cb⟩
  cases ca <;> cases cb <;>
    by_cases h1 : da < now <;> by_cases h2 : db < now <;>
      simp [h1, h2] <;> omega

/-- Two comparator invocations on the same pair agree (as far as the sort is
concerned) no matter which clock samples they observe. -/
theorem compareTodos_now_irrel (n n' : Int) (a b : Todo) :
    compareTodos n a b ≤ 0 ↔ compareTodos n' a b ≤ 0 := by
  rw [compareTodos_le_iff, compareTodos_le_iff]

/-- The comparator order implies the spec's three-key order. -/
theorem todoLe_imp_specThreeKeyLe (now : Int) (a b : Todo) :
    todoLe now a b → specThreeKeyLe now a b := by
  unfold todoLe specThreeKeyLe
  rw [compareTodos_le_iff]
  unfold isOverdueAt
  rcases a with ⟨_, _, _, da, ca⟩
  rcases b with ⟨_, _, _, db, cb⟩
  cases ca <;> cases cb <;>
    by_cases h1 : da < now <;> by_cases h2 : db < now <;>
      simp [h1, h2]
  all_goals omega

/-- A clocked insertion step computes the same list as the fixed-`now`
`orderedInsert`, for every clock and starting comparison index. -/
theorem orderedInsertClocked_fst (clock : Nat → Int) (now : Int) (a : Todo) :
    ∀ (k : Nat) (l : List Todo),
      (orderedInsertClocked clock a k l).1 = List.orderedInsert (todoLe now) a l := by
  intro k l
  induction l generalizing k with
  | nil => rfl
  | cons b l ih =>
    by_cases h : compareTodos now a b ≤ 0
    · have hk : compareTodos (clock k) a b ≤ 0 :=
        (compareTodos_now_irrel (clock k) now a b).2 h
      have hle : todoLe now a b := h
      simp [orderedInsertClocked, List.orderedInsert, hk, hle]
    · have hk : ¬compareTodos (clock k) a b ≤ 0 := fun hc =>
        h ((compareTodos_now_irrel (clock k) now a b).1 hc)
      have hle : ¬todoLe now a b := h
      simp [orderedInsertClocked, List.orderedInsert, hk, hle, ih]

/-- Accumulator form of the stats pass: the loop adds, to each starting
counter, the number of items satisfying the corresponding branch condition. -/
theorem countTodos_foldl (now : Int) :
    ∀ (l : List Todo) (c : Counts),
      l.foldl (countStep now) c =
        ⟨c.completed + l.countP (fun t => t.completed),
         c.incomplete + l.countP (fun t => !t.completed && !(decide (t.due_date < now))),
         c.overdue + l.countP (fun t => decide (t.due_date < now) && !t.completed)⟩ := by
  intro l
  induction l with
  | nil => intro c; simp
  | cons t l ih =>
    intro c
    rcases t with ⟨i, ti, de, d, co⟩
    cases co <;> by_cases h : d < now <;>
      simp [countStep, ih, List.countP_cons, h] <;> omega

/-- The three branch conditions of the stats loop partition the list: the three
counts always sum to the number of items. -/
theorem countP_partition (now : Int) (l : List Todo) :
    l.countP (fun t => decide (t.due_date < now) && !t.completed) +
      l.countP (fun t => t.completed) +
      l.countP (fun t => !t.completed && !(decide (t.due_date < now))) = l.length := by
  induction l with
  | nil => rfl
  | cons t l ih =>
    rcases t with ⟨i, ti, de, d, co⟩
    cases co <;> by_cases h : d < now <;>
      simp [List.countP_cons, h] <;> omega

/-! ### Claims -/

/-- C1: within one display-sort pass the comparator as written re-samples the
clock at every invocation (`const now = new Date()` inside the comparator),
yet the resulting list is equal to the sort run with one fixed captured `now`
— for every input list, every starting comparison index, every clock behaviour
during the pass, and every choice of the fixed sample; the stats pass
(`countTodos`) takes its single clock sample as an explicit parameter by
construction. -/
theorem displaySort_single_now_snapshot (clock : Nat → Int) (now : Int) :
    ∀ (k : Nat) (l : List Todo),
      (insertionSortClocked clock k l).1 = displaySort now l := by
  intro k l
  induction l generalizing k with
  | nil => rfl
  | cons a l ih =>
    simp only [insertionSortClocked, displaySort, List.insertionSort]
    rw [orderedInsertClocked_fst clock now, ih]
    rfl

/-- C2: `isTokenExpired` returns true when the decoded `exp` claim is earlier
than the clock, and true when decoding throws; but, contrary to the claim, it
returns false when the token decodes successfully to a payload without an
`exp` claim, because `undefined < now` evaluates to false in JS — fail-open
on that path, although the code's own doc comment says a missing `exp` claim
is treated as expired. -/
theorem isTokenExpired_behaviour :
    (∀ (decode : String → DecodeResult) (now : Int) (token : String) (e : Int),
        decode token = DecodeResult.payload (some e) → e < now →
          isTokenExpired decode now token = true) ∧
      (∀ (decode : String → DecodeResult) (now : Int) (token : String),
        decode token = DecodeResult.malformed →
          isTokenExpired decode now token = true) ∧
      (∀ (decode : String → DecodeResult) (now : Int) (token : String),
        decode token = DecodeResult.payload none →
          isTokenExpired decode now token = false) := by
  refine ⟨?_, ?_, ?_⟩
  · intro decode now token e h he
    simp [isTokenExpired, h, he]
  · intro decode now token h
    simp [isTokenExpired, h]
  · intro decode now token h
    simp [isTokenExpired, h]

/-- Witness for C2: a token expired at 10 checked at 100, a malformed token,
and a token whose payload lacks `exp` (the code reports it as NOT expired). -/
theorem isTokenExpired_behaviour_witness :
    isTokenExpired decode0 100 "good" = true ∧
      isTokenExpired decode0 100 "bad" = true ∧
      isTokenExpired decode0 100 "noexp" = false :=
  ⟨isTokenExpired_behaviour.1 decode0 100 "good" 10 (by decide) (by decide),
   isTokenExpired_behaviour.2.1 decode0 100 "bad" (by decide),
   isTokenExpired_behaviour.2.2 decode0 100 "noexp" (by decide)⟩

/-- C3: the display sort returns a permutation of its input that is totally
ordered by the spec's three keys in precedence: overdue items first, then
incomplete before completed among equal overdue status, then ascending due
date among remaining ties. -/
theorem displaySort_three_key_order (now : Int) (l : List Todo) :
    (displaySort now l).Perm l ∧
      List.Pairwise (specThreeKeyLe now) (displaySort now l) :=
  ⟨List.perm_insertionSort (todoLe now) l,
   List.Pairwise.imp (fun h => todoLe_imp_specThreeKeyLe now _ _ h)
     (List.sorted_insertionSort (todoLe now) l)⟩

/-- C4: the stats pass gives each item to exactly one counter (the three
counts sum to the length); the overdue counter counts exactly the items with
`due_date < now` and not completed, the completed counter counts exactly the
completed items (never overdue, regardless of due date), and the incomplete
counter the rest; an incomplete item due exactly at `now` counts as
incomplete; the empty list yields all zeroes; and the spec's four-item
example yields overdue 1, incomplete 2, completed 1. -/
theorem countTodos_classification (now : Int) (todos : List Todo) :
    (countTodos now todos).overdue =
        todos.countP (fun t => decide (t.due_date < now) && !t.completed) ∧
      (countTodos now todos).completed = todos.countP (fun t => t.completed) ∧
      (countTodos now todos).incomplete =
        todos.countP (fun t => !t.completed && !(decide (t.due_date < now))) ∧
      (countTodos now todos).overdue + (countTodos now todos).completed +
          (countTodos now todos).incomplete = todos.length ∧
      countTodos now [⟨0, "t", "", now, false⟩] = ⟨0, 1, 0⟩ ∧
      countTodos now [] = ⟨0, 0, 0⟩ ∧
      countTodos 0 specExample = ⟨1, 2, 1⟩ := by
  refine ⟨?_, ?_, ?_, ?_, ?_, rfl, by decide⟩
  · simp [countTodos, countTodos_foldl]
  · simp [countTodos, countTodos_foldl]
  · simp [countTodos, countTodos_foldl]
  · simp [countTodos, countTodos_foldl]
    exact countP_partition now todos
  · simp [countTodos, countStep]

/-- C5: when the stored token passes the local existence/expiry check and the
backend responds non-success or the transport fails, `isValidToken` clears
both storage tiers completely and returns false; it is a total function
returning a boolean, so no error reaches the caller on these paths. -/
theorem isValidToken_failure_clears (decode : String → DecodeResult) (now : Int)
    (st : ClientState) (resp : NetResult) (token : String)
    (htok : getToken st = some token) (htru : truthy token = true)
    (hexp : isTokenExpired decode now token = false)
    (hresp : resp ≠ NetResult.ok) :
    (isValidToken decode now st resp).1 = false ∧
      (∀ k, ((isValidToken decode now st resp).2.1).localStorage.getItem k = none ∧
        ((isValidToken decode now st resp).2.1).sessionStorage.getItem k = none) := by
  cases resp with
  | ok => exact absurd rfl hresp
  | httpError s =>
    simp [isValidToken, htok, htru, hexp, clearAllAuthData, Store.getItem, Store.clear]
  | netFail =>
    simp [isValidToken, htok, htru, hexp, clearAllAuthData, Store.getItem, Store.clear]

/-- Witness for C5: a stored, well-formed, unexpired token whose validation
request fails at the transport level. -/
theorem isValidToken_failure_clears_witness :
    (isValidToken decode0 5 stGood NetResult.netFail).1 = false ∧
      ((isValidToken decode0 5 stGood NetResult.netFail).2.1).localStorage.getItem
          "token" = none ∧
      ((isValidToken decode0 5 stGood NetResult.netFail).2.1).sessionStorage.getItem
          "token" = none :=
  have h := isValidToken_failure_clears decode0 5 stGood NetResult.netFail "good"
    (by decide) (by decide) (by decide) (by decide)
  ⟨h.1, (h.2 "token").1, (h.2 "token").2⟩

/-- C6: whenever the synchronous check `isLoggedIn` is false, `isValidToken`
returns false and performs zero network requests, for every storage state,
decode behaviour, clock, and would-be network outcome. -/
theorem isValidToken_no_network_when_logged_out (decode : String → DecodeResult)
    (now : Int) (st : ClientState) (resp : NetResult)
    (h : isLoggedIn decode now st = false) :
    (isValidToken decode now st resp).1 = false ∧
      (isValidToken decode now st resp).2.2 = 0 := by
  cases htok : getToken st with
  | none => simp [isValidToken, htok]
  | some token =>
    cases htr : truthy token with
    | false => simp [isValidToken, htok, htr]
    | true =>
      cases he : isTokenExpired decode now token with
      | true => simp [isValidToken, htok, htr, he]
      | false =>
        exfalso
        simp [isLoggedIn, htok, htr, he] at h

/-- Witness for C6: empty storage, hence no token; the validator answers false
with zero fetches. -/
theorem isValidToken_no_network_witness :
    isLoggedIn decode0 5 stEmpty = false ∧
      (isValidToken decode0 5 stEmpty NetResult.ok).1 = false ∧
      (isValidToken decode0 5 stEmpty NetResult.ok).2.2 = 0 :=
  have h := isValidToken_no_network_when_logged_out decode0 5 stEmpty NetResult.ok
    (by decide)
  ⟨by decide, h.1, h.2⟩

/-- C7: after `logout` the six auth/user-scoped keys are absent from
localStorage, the `loggedIn` key holds the string "false" (set, not deleted),
every other localStorage key keeps its exact prior value, and sessionStorage
is untouched. -/
theorem logout_frame (st : ClientState) :
    (∀ k, k ∈ logoutRemovedKeys → (logout st).localStorage.getItem k = none) ∧
      (logout st).localStorage.getItem "loggedIn" = some "false" ∧
      (∀ k, k ∉ logoutRemovedKeys → k ≠ "loggedIn" →
        (logout st).localStorage.getItem k = st.localStorage.getItem k) ∧
      (logout st).sessionStorage = st.sessionStorage := by
  refine ⟨?_, rfl, ?_, rfl⟩
  · intro k hk
    simp only [logoutRemovedKeys, List.mem_cons, List.not_mem_nil, or_false] at hk
    rcases hk with rfl | rfl | rfl | rfl | rfl | rfl <;> rfl
  · intro k hk hkl
    simp only [logoutRemovedKeys, List.mem_cons, List.not_mem_nil, or_false,
      not_or] at hk
    obtain ⟨h1, h2, h3, h4, h5, h6⟩ := hk
    simp [logout, Store.getItem, Store.setItem, Store.removeItem,
      h1, h2, h3, h4, h5, h6, hkl]

/-- Witness for C7: a state holding an unrelated `"theme"` key. -/
theorem logout_frame_witness :
    (logout stTheme).localStorage.getItem "token" = none ∧
      (logout stTheme).localStorage.getItem "loggedIn" = some "false" ∧
      (logout stTheme).localStorage.getItem "theme" =
        stTheme.localStorage.getItem "theme" :=
  ⟨(logout_frame stTheme).1 "token" (by decide),
   (logout_frame stTheme).2.1,
   (logout_frame stTheme).2.2.1 "theme" (by decide) (by decide)⟩

/-- C8: `clearAllAuthData` leaves both storage tiers with no entries at all,
from every starting state. -/
theorem clearAllAuthData_empties (st : ClientState) (k : String) :
    (clearAllAuthData st).localStorage.getItem k = none ∧
      (clearAllAuthData st).sessionStorage.getItem k = none :=
  ⟨rfl, rfl⟩

/-- C9: `isLoggedIn` is true exactly when a token is stored and it is not
expired, for every storage state and clock, and every decode behaviour that
rejects the empty string (the real `jwtDecode` throws on it); the function is
a pure function of storage and clock, so it performs no network I/O by
construction. -/
theorem isLoggedIn_iff (decode : String → DecodeResult) (now : Int)
    (st : ClientState) (hempty : decode "" = DecodeResult.malformed) :
    isLoggedIn decode now st = true ↔
      ∃ token, getToken st = some token ∧
        isTokenExpired decode now token = false := by
  cases htok : getToken st with
  | none => simp [isLoggedIn, htok]
  | some token =>
    simp only [isLoggedIn, htok]
    constructor
    · intro h
      rw [Bool.and_eq_true, Bool.not_eq_true'] at h
      exact ⟨token, rfl, h.2⟩
    · rintro ⟨t, ht, hexp⟩
      injection ht with ht'
      subst ht'
      have htr : truthy token = true := by
        rcases eq_or_ne token "" with rfl | hne
        · exfalso
          simp [isTokenExpired, hempty] at hexp
        · simp [truthy, hne]
      simp [htr, hexp]

/-- Witness for C9: a state holding an unexpired token, with the concrete
decode behaviour (which maps the empty string to a decode failure). -/
theorem isLoggedIn_iff_witness :
    isLoggedIn decode0 5 stGood = true ↔
      ∃ token, getToken stGood = some token ∧
        isTokenExpired decode0 5 token = false :=
  isLoggedIn_iff decode0 5 stGood (by decide)

/-- C10: a list already in display order for a reference instant sorts to
itself under that same instant — the sort is stable and idempotent. -/
theorem displaySort_idempotent (now : Int) (l : List Todo) :
    (List.Sorted (todoLe now) l → displaySort now l = l) ∧
      displaySort now (displaySort now l) = displaySort now l :=
  ⟨fun h => List.Sorted.insertionSort_eq h,
   List.Sorted.insertionSort_eq (List.sorted_insertionSort (todoLe now) l)⟩

/-- Witness for C10: a concrete already-sorted two-item list. -/
theorem displaySort_idempotent_witness :
    displaySort 0 sortedPair = sortedPair :=
  (displaySort_idempotent 0 sortedPair).1 (by decide)

end TodoApp
